import Mathlib

/-!
Shallow embedding of the black-oil TPFA local residual
(`opm/models/blackoil/blackoillocalresidualtpfa.hh`, class
`Opm::BlackOilLocalResidualTPFA`), together with theorems checking the
natural-language specification of the residual engine against the code.

Modelling conventions:
* machine reals (`Scalar`) are embedded as `ℚ`;
* the dual-number `Evaluation` value type of the automatic-differentiation
  toolbox carries a value and a fixed-size derivative array (`numEq = 4`
  slots: three mass-conservation slots plus one extra slot, used e.g. by the
  energy equation);
* the three canonical phases/components are water = 0, oil = 1, gas = 2,
  matching the fluid system's canonical numbering;
* equation vectors (`Dune::FieldVector<LhsEval, numEq>`) are `Fin 4 →
  Evaluation`, with `conti0EqIdx = 0` folded into the
  canonical-to-active component map;
* external collaborators that live outside the excerpt (the upwind
  selector `ExtensiveQuantities::calculatePhasePressureDiff_`, the
  problem callbacks, the physics module chain) are passed as parameters:
  the theorems quantify over them.
-/

/-- Dual-number value type of the differentiation toolbox: a scalar value
together with partial derivatives with respect to a fixed-size set of local
unknowns (the focus degree of freedom's primary variables). -/
structure Evaluation where
  val : ℚ
  deriv : Fin 4 → ℚ
deriving DecidableEq

/-- A constant (derivative-free) `Evaluation`; this is `Toolbox::createConstant`
and also the result of `Toolbox::value` followed by re-wrapping. -/
def Evaluation.constE (c : ℚ) : Evaluation := ⟨c, fun _ => 0⟩

/-- `Opm::variable<Evaluation>(v, k)`: value `v`, seeded with derivative one in
slot `k` and zero elsewhere. -/
def Evaluation.varE (c : ℚ) (k : ℕ) : Evaluation :=
  ⟨c, fun i => if (i : ℕ) = k then 1 else 0⟩

instance : Zero Evaluation := ⟨Evaluation.constE 0⟩
instance : One Evaluation := ⟨Evaluation.constE 1⟩
instance : Add Evaluation := ⟨fun a b => ⟨a.val + b.val, fun i => a.deriv i + b.deriv i⟩⟩
instance : Neg Evaluation := ⟨fun a => ⟨-a.val, fun i => -a.deriv i⟩⟩
instance : Mul Evaluation :=
  ⟨fun a b => ⟨a.val * b.val, fun i => a.val * b.deriv i + b.val * a.deriv i⟩⟩

/-- `Toolbox::decay<LhsEval>`: with `keep = true` (the target type carries
derivatives) the value is passed through unchanged; with `keep = false` (the
target type is the plain scalar) the derivatives are discarded. -/
def Evaluation.decayTo (keep : Bool) (a : Evaluation) : Evaluation :=
  if keep then a else Evaluation.constE a.val

/-- `Opm::variable<LhsEval>(v, k)` for both template instantiations: a seeded
dual number when `LhsEval` is the `Evaluation` type, the plain value when
`LhsEval` is the scalar type. -/
def mkLhsVariable (lhsIsEval : Bool) (v : ℚ) (k : ℕ) : Evaluation :=
  if lhsIsEval then Evaluation.varE v k else Evaluation.constE v

/-- The fixed-size conserved-quantity vector
(`Dune::FieldVector<LhsEval, numEq>` with `numEq = 4`). -/
abbrev EqVector := Fin 4 → Evaluation

/-- Canonical phase index of water (`FluidSystem::waterPhaseIdx`). -/
abbrev waterPhaseIdx : Fin 3 := 0
/-- Canonical phase index of oil (`FluidSystem::oilPhaseIdx`). -/
abbrev oilPhaseIdx : Fin 3 := 1
/-- Canonical phase index of gas (`FluidSystem::gasPhaseIdx`). -/
abbrev gasPhaseIdx : Fin 3 := 2
/-- Canonical component index of water (`FluidSystem::waterCompIdx`). -/
abbrev waterCompIdx : Fin 3 := 0
/-- Canonical component index of oil (`FluidSystem::oilCompIdx`). -/
abbrev oilCompIdx : Fin 3 := 1
/-- Canonical component index of gas (`FluidSystem::gasCompIdx`). -/
abbrev gasCompIdx : Fin 3 := 2

/-- `FluidSystem::solventComponentIndex(phaseIdx)`: the main component carried
by a phase; with the canonical numbering above it is the identity. -/
def solventComponentIndex (p : Fin 3) : Fin 3 := p

/-- The phase whose reference density converts a component's surface volume to
mass (water component → water phase, etc.); identity under the canonical
numbering. -/
def mainPhaseOfComponent (c : Fin 3) : Fin 3 := c

/-- Configuration data read from the fluid-system descriptor. -/
structure FluidSystemCfg where
  phaseIsActive : Fin 3 → Bool
  enableDissolvedGas : Bool
  enableVaporizedOil : Bool
  enableVaporizedWater : Bool
  referenceDensity : Fin 3 → ℕ → ℚ

/-- Configuration data read from the `Indices` class: the three-phase
numbering convention flag (`Indices::numPhases`), the canonical-to-active
component map (already offset by `conti0EqIdx = 0`, so it lands directly in
the equation-slot space), the per-component enabled flags and the energy
equation's slot. -/
structure IndicesCfg where
  numPhases : ℕ
  canonicalToActiveComponentIndex : Fin 3 → Fin 4
  waterEnabled : Bool
  gasEnabled : Bool
  oilEnabled : Bool
  contiEnergyEqIdx : Fin 4

/-- Static model configuration of `BlackOilLocalResidualTPFA` (fluid system,
indices, energy switches). The `BlackoilConserveSurfaceVolume` property is
passed separately to the functions that consult it. -/
structure ModelCfg where
  fs : FluidSystemCfg
  ix : IndicesCfg
  enableEnergy : Bool
  energyScalingFactor : ℚ

/-- Equation slot of a canonical component: `conti0EqIdx +
Indices::canonicalToActiveComponentIndex(comp)` with `conti0EqIdx = 0`. -/
def eqSlot (cfg : ModelCfg) (c : Fin 3) : Fin 4 :=
  cfg.ix.canonicalToActiveComponentIndex c

/-- Immutable fluid-state snapshot of one degree of freedom at one time level
(the part of `BlackOilFluidState` read by the residual). -/
structure FluidState where
  saturation : Fin 3 → Evaluation
  invB : Fin 3 → Evaluation
  Rs : Evaluation
  Rv : Evaluation
  Rvw : Evaluation
deriving DecidableEq

/-- The intensive quantities of one degree of freedom (fluid state, porosity,
per-phase mobility, PVT region index). -/
structure IntQuantities where
  fluidState : FluidState
  porosity : Evaluation
  mobility : Fin 3 → Evaluation
  pvtRegionIndex : ℕ
deriving DecidableEq

/-- `v[j] += e` on an equation vector. -/
def addToSlot (v : EqVector) (j : Fin 4) (e : Evaluation) : EqVector :=
  fun k => if k = j then v k + e else v k

/-- `v[j] = e` on an equation vector. -/
def setSlot (v : EqVector) (j : Fin 4) (e : Evaluation) : EqVector :=
  fun k => if k = j then e else v k

/-- `v[j] *= c` for a plain scalar factor `c`. -/
def scaleSlot (v : EqVector) (j : Fin 4) (c : ℚ) : EqVector :=
  fun k => if k = j then v k * Evaluation.constE c else v k

/-- `BlackOilLocalResidualTPFA::adaptMassConservationQuantities_`: a no-op in
surface-volume mode; otherwise multiplies the water, gas and oil component
slots (in that source order, each gated by its `Indices` enabled flag) by the
respective phase's reference density at the given PVT region. -/
def adaptMassConservationQuantities_ (cfg : ModelCfg) (conserveSurfaceVolume : Bool)
    (pvtRegionIdx : ℕ) (container : EqVector) : EqVector :=
  if conserveSurfaceVolume then container else
    let c1 := if cfg.ix.waterEnabled then
        scaleSlot container (eqSlot cfg waterCompIdx)
          (cfg.fs.referenceDensity waterPhaseIdx pvtRegionIdx)
      else container
    let c2 := if cfg.ix.gasEnabled then
        scaleSlot c1 (eqSlot cfg gasCompIdx)
          (cfg.fs.referenceDensity gasPhaseIdx pvtRegionIdx)
      else c1
    if cfg.ix.oilEnabled then
      scaleSlot c2 (eqSlot cfg oilCompIdx)
        (cfg.fs.referenceDensity oilPhaseIdx pvtRegionIdx)
    else c2

/-- One iteration of the phase loop of
`BlackOilLocalResidualTPFA::computeStorage` (source lines 119-162): an active
phase accumulates `saturation * invB * porosity` into its own component slot
plus the dissolved-gas / vaporized-oil / vaporized-water cross terms; an
inactive phase, under the three-phase numbering convention
(`Indices::numPhases == 3`), gets its slot assigned the trivial
pseudo-equation. `lhsIsEval` selects the `LhsEval` template instantiation. -/
def storagePhaseContrib (cfg : ModelCfg) (lhsIsEval : Bool) (iq : IntQuantities)
    (timeIdx : ℕ) (p : Fin 3) (storage : EqVector) : EqVector :=
  if cfg.fs.phaseIsActive p then
    let svol := Evaluation.decayTo lhsIsEval (iq.fluidState.saturation p) *
      Evaluation.decayTo lhsIsEval (iq.fluidState.invB p) *
      Evaluation.decayTo lhsIsEval iq.porosity
    let s1 := addToSlot storage (eqSlot cfg (solventComponentIndex p)) svol
    let s2 := if p = oilPhaseIdx ∧ cfg.fs.enableDissolvedGas then
        addToSlot s1 (eqSlot cfg gasCompIdx)
          (Evaluation.decayTo lhsIsEval iq.fluidState.Rs * svol)
      else s1
    let s3 := if p = gasPhaseIdx ∧ cfg.fs.enableVaporizedOil then
        addToSlot s2 (eqSlot cfg oilCompIdx)
          (Evaluation.decayTo lhsIsEval iq.fluidState.Rv * svol)
      else s2
    if p = gasPhaseIdx ∧ cfg.fs.enableVaporizedWater then
      addToSlot s3 (eqSlot cfg waterCompIdx)
        (Evaluation.decayTo lhsIsEval iq.fluidState.Rvw * svol)
    else s3
  else
    if cfg.ix.numPhases = 3 then
      setSlot storage (eqSlot cfg (solventComponentIndex p))
        (if timeIdx = 0 then
          mkLhsVariable lhsIsEval 0 (eqSlot cfg (solventComponentIndex p) : ℕ)
        else Evaluation.constE 0)
    else storage

/-- The phase loop of `computeStorage`, starting from the zero-assigned
output vector (`storage = 0.0`) and visiting the phases in index order. -/
def computeStorageCore (cfg : ModelCfg) (lhsIsEval : Bool) (iq : IntQuantities)
    (timeIdx : ℕ) : EqVector :=
  storagePhaseContrib cfg lhsIsEval iq timeIdx 2
    (storagePhaseContrib cfg lhsIsEval iq timeIdx 1
      (storagePhaseContrib cfg lhsIsEval iq timeIdx 0 (fun _ => 0)))

/-- Modelled from the spec: the physics module chain (solvent, extended
black-oil, polymer, energy, foam, brine, MICP — none of whose code is in the
excerpt) is an ordered list of contributions, each added to the shared output
vector; modules never rescale or overwrite what is already there. -/
def applyModules (mods : List EqVector) (s : EqVector) : EqVector :=
  mods.foldl (fun acc m => acc + m) s

/-- `BlackOilLocalResidualTPFA::computeStorage` (the intensive-quantities
overload): zero the output vector, run the phase loop, apply the
mass-conservation conversion, then let each module add its contribution.
The initial content `_storage0` of the by-reference output parameter is
discarded by the `storage = 0.0` assignment. -/
def computeStorage (cfg : ModelCfg) (conserveSurfaceVolume : Bool) (lhsIsEval : Bool)
    (iq : IntQuantities) (timeIdx : ℕ) (mods : List EqVector)
    (_storage0 : EqVector) : EqVector :=
  applyModules mods
    (adaptMassConservationQuantities_ cfg conserveSurfaceVolume iq.pvtRegionIndex
      (computeStorageCore cfg lhsIsEval iq timeIdx))

/-- Modelled from the spec: `getInvB_<FluidSystem, FluidState, UpEval>` (the
accessor helper is declared outside the excerpt) reads the phase's inverse
formation-volume-factor from the fluid state and decays it to the `UpEval`
type (`keep = false` decays to the plain scalar). -/
def getInvB_ (keep : Bool) (fs : FluidState) (p : Fin 3) (_pvtRegionIdx : ℕ) : Evaluation :=
  Evaluation.decayTo keep (fs.invB p)

/-- Modelled from the spec: `BlackOil::getRs_<FluidSystem, FluidState, UpEval>`
reads the dissolved-gas ratio Rs from the fluid state, decayed to `UpEval`. -/
def getRs_ (keep : Bool) (fs : FluidState) (_pvtRegionIdx : ℕ) : Evaluation :=
  Evaluation.decayTo keep fs.Rs

/-- Modelled from the spec: `BlackOil::getRv_<FluidSystem, FluidState, UpEval>`
reads the vaporized-oil ratio Rv from the fluid state, decayed to `UpEval`. -/
def getRv_ (keep : Bool) (fs : FluidState) (_pvtRegionIdx : ℕ) : Evaluation :=
  Evaluation.decayTo keep fs.Rv

/-- Modelled from the spec: `BlackOil::getRvw_<FluidSystem, FluidState,
UpEval>` reads the vaporized-water ratio Rvw, decayed to `UpEval`. -/
def getRvw_ (keep : Bool) (fs : FluidState) (_pvtRegionIdx : ℕ) : Evaluation :=
  Evaluation.decayTo keep fs.Rvw

/-- `BlackOilLocalResidualTPFA::evalPhaseFluxes_` (the surface-volume-flux
overload, source lines 375-425): adds the phase's surface-volume flux to its
own component slot and the Rs/Rv/Rvw-weighted cross terms to the gas, oil and
water component slots, each term multiplied inline by the matching phase's
reference density when the model conserves mass instead of surface volume.
`keepUp` is the `UpEval` template argument (`true` = derivative-carrying). -/
def evalPhaseFluxes_ (cfg : ModelCfg) (conserveSurfaceVolume : Bool) (keepUp : Bool)
    (p : Fin 3) (pvtRegionIdx : ℕ) (surfaceVolumeFlux : Evaluation)
    (upFs : FluidState) (flux : EqVector) : EqVector :=
  let activeCompSlot := eqSlot cfg (solventComponentIndex p)
  let f1 := if conserveSurfaceVolume then
      addToSlot flux activeCompSlot surfaceVolumeFlux
    else
      addToSlot flux activeCompSlot
        (surfaceVolumeFlux * Evaluation.constE (cfg.fs.referenceDensity p pvtRegionIdx))
  let f2 := if p = oilPhaseIdx ∧ cfg.fs.enableDissolvedGas then
      let rs := getRs_ keepUp upFs pvtRegionIdx
      if conserveSurfaceVolume then
        addToSlot f1 (eqSlot cfg gasCompIdx) (rs * surfaceVolumeFlux)
      else
        addToSlot f1 (eqSlot cfg gasCompIdx)
          (rs * surfaceVolumeFlux *
            Evaluation.constE (cfg.fs.referenceDensity gasPhaseIdx pvtRegionIdx))
    else f1
  let f3 := if p = gasPhaseIdx ∧ cfg.fs.enableVaporizedOil then
      let rv := getRv_ keepUp upFs pvtRegionIdx
      if conserveSurfaceVolume then
        addToSlot f2 (eqSlot cfg oilCompIdx) (rv * surfaceVolumeFlux)
      else
        addToSlot f2 (eqSlot cfg oilCompIdx)
          (rv * surfaceVolumeFlux *
            Evaluation.constE (cfg.fs.referenceDensity oilPhaseIdx pvtRegionIdx))
    else f2
  if p = gasPhaseIdx ∧ cfg.fs.enableVaporizedWater then
    let rvw := getRvw_ keepUp upFs pvtRegionIdx
    if conserveSurfaceVolume then
      addToSlot f3 (eqSlot cfg waterCompIdx) (rvw * surfaceVolumeFlux)
    else
      addToSlot f3 (eqSlot cfg waterCompIdx)
        (rvw * surfaceVolumeFlux *
          Evaluation.constE (cfg.fs.referenceDensity waterPhaseIdx pvtRegionIdx))
  else f3

/-- Geometry, topology and problem data of one interior face, as gathered by
`computeFlux` before the phase loop (dof indices, global space indices,
transmissibility, face area, the two dofs' intensive quantities, and the
focus dof of the current Jacobian column). -/
structure FluxArgs where
  inQ : IntQuantities
  exQ : IntQuantities
  interiorDofIdx : ℕ
  exteriorDofIdx : ℕ
  globalIndexIn : ℕ
  globalIndexEx : ℕ
  trans : ℚ
  faceArea : ℚ
  focusDofIdx : ℕ

/-- The Darcy-flux expression of `computeFlux` (source lines 282-292): zero
when the potential difference's value is exactly zero (the dual-number
comparison `pressureDifference == 0` compares values); otherwise the full
dual-number product when the upstream dof is the interior dof, and the
product with the mobility and transmissibility multiplier decayed to plain
scalars when the upstream dof is the exterior dof. -/
def darcyFlux_ (upIsInterior : Prop) [Decidable upIsInterior]
    (pd mob transMult : Evaluation) (trans faceArea : ℚ) : Evaluation :=
  if pd.val = 0 then Evaluation.constE 0
  else if upIsInterior then
    pd * mob * transMult * Evaluation.constE (-trans / faceArea)
  else
    pd * Evaluation.constE (mob.val * transMult.val * (-trans / faceArea))

/-- One iteration of the phase loop of
`BlackOilLocalResidualTPFA::computeFlux` (source lines 268-307), given the
outputs `upIdx` and `pd` of the external upwind selector
(`ExtensiveQuantities::calculatePhasePressureDiff_`, not part of the
excerpt) and the problem's rock-compaction transmissibility-multiplier
callback `rcm`. The upstream quantities and the transmissibility multiplier
are taken from the interior side exactly when `upIdx` equals the interior
dof index; the surface-volume conversion and the transported-ratio lookups
keep the dual-number path exactly when `upIdx` equals the focus dof. -/
def phaseFluxContrib (cfg : ModelCfg) (conserveSurfaceVolume : Bool)
    (rcm : IntQuantities → ℕ → Evaluation) (a : FluxArgs) (p : Fin 3)
    (upIdx : ℕ) (pd : Evaluation) (flux : EqVector) : EqVector :=
  let up := if upIdx = a.interiorDofIdx then a.inQ else a.exQ
  let globalIndex := if upIdx = a.interiorDofIdx then a.globalIndexIn else a.globalIndexEx
  let transMult := rcm up globalIndex
  let darcyFlux := darcyFlux_ (upIdx = a.interiorDofIdx) pd (up.mobility p) transMult
    a.trans a.faceArea
  if upIdx = a.focusDofIdx then
    evalPhaseFluxes_ cfg conserveSurfaceVolume true p up.pvtRegionIndex
      (getInvB_ true up.fluidState p up.pvtRegionIndex * darcyFlux) up.fluidState flux
  else
    evalPhaseFluxes_ cfg conserveSurfaceVolume false p up.pvtRegionIndex
      (getInvB_ false up.fluidState p up.pvtRegionIndex * darcyFlux) up.fluidState flux

/-- `BlackOilLocalResidualTPFA::computeFlux`: guarded by `assert(timeIdx ==
0)` (modelled as `none` for any other time level), it zero-assigns the output
vector, runs the per-phase upwind/Darcy/distribution loop over the active
phases, and finally lets the modules (and the diffusion term) add their
contributions. `sel` packages the outputs of the external upwind selector
per phase, and `_flux0` is the discarded initial content of the
by-reference output parameter. -/
def computeFlux (cfg : ModelCfg) (conserveSurfaceVolume : Bool)
    (rcm : IntQuantities → ℕ → Evaluation) (a : FluxArgs)
    (sel : Fin 3 → ℕ × Evaluation) (mods : List EqVector)
    (_flux0 : EqVector) (timeIdx : ℕ) : Option EqVector :=
  if timeIdx = 0 then
    let step := fun (f : EqVector) (p : Fin 3) =>
      if cfg.fs.phaseIsActive p then
        phaseFluxContrib cfg conserveSurfaceVolume rcm a p (sel p).1 (sel p).2 f
      else f
    some (applyModules mods (step (step (step (fun _ => 0) 0) 1) 2))
  else none

/-- `BlackOilLocalResidualTPFA::computeSource`: the output vector is handed
as-is to the external problem callback (`problem.source`, modelled as an
arbitrary transformation `problemSource` of the current contents), the MICP
module adds its contribution, and finally — if energy is enabled — the energy
equation's slot is multiplied by the configured scaling factor. -/
def computeSource (cfg : ModelCfg) (problemSource : EqVector → EqVector)
    (micpSource : EqVector) (source0 : EqVector) : EqVector :=
  let source := problemSource source0
  let source := source + micpSource
  if cfg.enableEnergy then
    scaleSlot source cfg.ix.contiEnergyEqIdx cfg.energyScalingFactor
  else source

/-- A fluid state all of whose entries have derivative zero in slot `k`. -/
def FluidState.derivFree (fs : FluidState) (k : Fin 4) : Prop :=
  (∀ p, (fs.saturation p).deriv k = 0) ∧ (∀ p, (fs.invB p).deriv k = 0) ∧
    fs.Rs.deriv k = 0 ∧ fs.Rv.deriv k = 0 ∧ fs.Rvw.deriv k = 0

instance (fs : FluidState) (k : Fin 4) : Decidable (fs.derivFree k) := by
  unfold FluidState.derivFree; infer_instance

/-- Intensive quantities all of whose entries have derivative zero in slot
`k` (the seeding discipline gives this for every non-focus dof). -/
def IntQuantities.derivFree (iq : IntQuantities) (k : Fin 4) : Prop :=
  iq.fluidState.derivFree k ∧ (∀ p, (iq.mobility p).deriv k = 0) ∧
    iq.porosity.deriv k = 0

instance (iq : IntQuantities) (k : Fin 4) : Decidable (iq.derivFree k) := by
  unfold IntQuantities.derivFree; infer_instance

/-- Example fluid state used to instantiate witnesses: nonzero saturations,
inverse formation-volume-factors and ratios, all derivative-free. -/
def exFS : FluidState where
  saturation := fun p => Evaluation.constE (1 + (p : ℚ))
  invB := fun p => Evaluation.constE (2 + (p : ℚ))
  Rs := Evaluation.constE 50
  Rv := Evaluation.constE 7
  Rvw := Evaluation.constE 3

/-- Example intensive quantities built on `exFS`, with a mobility that
carries a derivative in slot 0 (as the focus dof's quantities would). -/
def exIQ : IntQuantities where
  fluidState := exFS
  porosity := Evaluation.constE (1/4)
  mobility := fun p => ⟨3 + (p : ℚ), fun i => if i = 0 then 1 else 0⟩
  pvtRegionIndex := 0

/-- Example configuration: all phases active and all components enabled,
dissolved gas enabled, identity-like component-to-slot map, reference
densities distinguishing the phases, energy disabled. -/
def exCfg : ModelCfg where
  fs := {
    phaseIsActive := fun _ => true
    enableDissolvedGas := true
    enableVaporizedOil := false
    enableVaporizedWater := false
    referenceDensity := fun p _ => 2 + (p : ℚ) }
  ix := {
    numPhases := 3
    canonicalToActiveComponentIndex := fun c => Fin.castSucc c
    waterEnabled := true
    gasEnabled := true
    oilEnabled := true
    contiEnergyEqIdx := 3 }
  enableEnergy := false
  energyScalingFactor := 1

/-- Example face arguments: interior dof 0, exterior dof 1, focus on the
exterior dof, transmissibility −1 and unit face area (so that
`-trans/faceArea = 1`). -/
def exArgs : FluxArgs where
  inQ := exIQ
  exQ := exIQ
  interiorDofIdx := 0
  exteriorDofIdx := 1
  globalIndexIn := 10
  globalIndexEx := 11
  trans := -1
  faceArea := 1
  focusDofIdx := 1

/-- Example rock-compaction transmissibility-multiplier callback: the
constant one multiplier, independent of the upstream cell. -/
def exRcm : IntQuantities → ℕ → Evaluation := fun _ _ => Evaluation.constE 1


/-- Example configuration with the gas phase inactive and its component
disabled (three-phase numbering still in use), for the pseudo-equation
witness. -/
def exCfgInactive : ModelCfg where
  fs := {
    phaseIsActive := fun p => decide (p ≠ gasPhaseIdx)
    enableDissolvedGas := false
    enableVaporizedOil := false
    enableVaporizedWater := false
    referenceDensity := fun p _ => 2 + (p : ℚ) }
  ix := {
    numPhases := 3
    canonicalToActiveComponentIndex := fun c => Fin.castSucc c
    waterEnabled := true
    gasEnabled := false
    oilEnabled := true
    contiEnergyEqIdx := 3 }
  enableEnergy := false
  energyScalingFactor := 1

/-- Example intensive quantities with zero saturations and ratios (the core
storage vanishes), used by the conversion-ordering counterexample. -/
def exIQzero : IntQuantities where
  fluidState := {
    saturation := fun _ => Evaluation.constE 0
    invB := fun _ => Evaluation.constE 1
    Rs := Evaluation.constE 0
    Rv := Evaluation.constE 0
    Rvw := Evaluation.constE 0 }
  porosity := Evaluation.constE 1
  mobility := fun _ => Evaluation.constE 1
  pvtRegionIndex := 0

/-- Example physics-module contribution: one unit of the slot-0 conserved
quantity. -/
def exModVec : EqVector := fun k => if k = 0 then Evaluation.constE 1 else 0

/-! ### Basic lemmas about the dual-number arithmetic -/

@[ext] theorem Evaluation.ext {a b : Evaluation} (h1 : a.val = b.val)
    (h2 : ∀ i, a.deriv i = b.deriv i) : a = b := by
  cases a; cases b
  simp only [Evaluation.mk.injEq]
  exact ⟨h1, funext h2⟩

@[simp] theorem Evaluation.val_add (a b : Evaluation) : (a + b).val = a.val + b.val := rfl

@[simp] theorem Evaluation.deriv_add (a b : Evaluation) (i : Fin 4) :
    (a + b).deriv i = a.deriv i + b.deriv i := rfl

@[simp] theorem Evaluation.val_mul (a b : Evaluation) : (a * b).val = a.val * b.val := rfl

@[simp] theorem Evaluation.deriv_mul (a b : Evaluation) (i : Fin 4) :
    (a * b).deriv i = a.val * b.deriv i + b.val * a.deriv i := rfl

@[simp] theorem Evaluation.val_constE (c : ℚ) : (Evaluation.constE c).val = c := rfl

@[simp] theorem Evaluation.deriv_constE (c : ℚ) (i : Fin 4) :
    (Evaluation.constE c).deriv i = 0 := rfl

@[simp] theorem Evaluation.val_zero : (0 : Evaluation).val = 0 := rfl

@[simp] theorem Evaluation.deriv_zero (i : Fin 4) : (0 : Evaluation).deriv i = 0 := rfl

@[simp] theorem Evaluation.val_varE (c : ℚ) (k : ℕ) : (Evaluation.varE c k).val = c := rfl

@[simp] theorem Evaluation.deriv_varE (c : ℚ) (k : ℕ) (i : Fin 4) :
    (Evaluation.varE c k).deriv i = if (i : ℕ) = k then 1 else 0 := rfl

@[simp] theorem Evaluation.val_decayTo (keep : Bool) (a : Evaluation) :
    (a.decayTo keep).val = a.val := by
  cases keep <;> rfl

@[simp] theorem Evaluation.deriv_decayTo (keep : Bool) (a : Evaluation) (i : Fin 4) :
    (a.decayTo keep).deriv i = if keep then a.deriv i else 0 := by
  cases keep <;> rfl

theorem Evaluation.decayTo_true (a : Evaluation) : a.decayTo true = a := rfl

theorem Evaluation.decayTo_false (a : Evaluation) :
    a.decayTo false = Evaluation.constE a.val := rfl

theorem Evaluation.add_zeroE (a : Evaluation) : a + 0 = a := by
  ext i <;> simp

theorem Evaluation.mul_zeroE (a : Evaluation) : a * 0 = 0 := by
  ext i <;> simp

theorem addToSlot_apply (v : EqVector) (j k : Fin 4) (e : Evaluation) :
    addToSlot v j e k = if k = j then v k + e else v k := rfl

theorem setSlot_apply (v : EqVector) (j k : Fin 4) (e : Evaluation) :
    setSlot v j e k = if k = j then e else v k := rfl

theorem scaleSlot_apply (v : EqVector) (j k : Fin 4) (c : ℚ) :
    scaleSlot v j c k = if k = j then v k * Evaluation.constE c else v k := rfl

theorem addToSlot_zeroE (v : EqVector) (j : Fin 4) : addToSlot v j 0 = v := by
  funext k
  simp only [addToSlot_apply]
  split
  · exact Evaluation.add_zeroE _
  · rfl

theorem Evaluation.zero_mulE (a : Evaluation) : 0 * a = 0 := by
  ext i <;> simp

theorem Evaluation.constE_zero : Evaluation.constE 0 = (0 : Evaluation) := rfl

theorem darcyFlux_of_val_zero (c : Prop) (inst : Decidable c) (pd mob tm : Evaluation)
    (trans faceArea : ℚ) (h : pd.val = 0) :
    darcyFlux_ c pd mob tm trans faceArea = 0 := by
  unfold darcyFlux_
  rw [if_pos h]
  rfl

theorem evalPhaseFluxes_zero_svf (cfg : ModelCfg) (csv keep : Bool) (p : Fin 3)
    (pvt : ℕ) (fs : FluidState) (flux : EqVector) :
    evalPhaseFluxes_ cfg csv keep p pvt 0 fs flux = flux := by
  unfold evalPhaseFluxes_
  simp only [Evaluation.mul_zeroE, Evaluation.zero_mulE, addToSlot_zeroE]
  split_ifs <;> rfl

/-- C5: for every face and every active phase, an exactly-zero
gravity-and-threshold-adjusted potential difference short-circuits the
phase's flux contribution to exactly zero (the output vector is returned
unchanged, whatever the mobility and transmissibility-multiplier values
are). -/
theorem claimC5_zero_potential_fast_path (cfg : ModelCfg) (conserveSurfaceVolume : Bool)
    (rcm : IntQuantities → ℕ → Evaluation) (a : FluxArgs) (p : Fin 3) (upIdx : ℕ)
    (pd : Evaluation) (flux0 : EqVector) (hActive : cfg.fs.phaseIsActive p = true)
    (h : pd.val = 0) :
    phaseFluxContrib cfg conserveSurfaceVolume rcm a p upIdx pd flux0 = flux0 := by
  unfold phaseFluxContrib
  have hd := fun (c : Prop) (inst : Decidable c) (mob tm : Evaluation) =>
    darcyFlux_of_val_zero c inst pd mob tm a.trans a.faceArea h
  simp only [hd, Evaluation.mul_zeroE, evalPhaseFluxes_zero_svf]
  split <;> rfl

/-- C5 witness: at the example inputs with a zero potential difference the
water-phase contribution leaves the zero flux vector unchanged. -/
theorem claimC5_zero_potential_fast_path_witness :
    phaseFluxContrib exCfg true exRcm exArgs waterPhaseIdx 0 (Evaluation.constE 0)
      (fun _ => 0) = (fun _ => 0) :=
  claimC5_zero_potential_fast_path exCfg true exRcm exArgs waterPhaseIdx 0
    (Evaluation.constE 0) (fun _ => 0) (by decide) rfl

/-- C9: `computeFlux` is defined exactly at the first time level — the
`assert(timeIdx == 0)` guard rejects every other time level (while
`computeStorage` is total in the time level by construction). -/
theorem claimC9_flux_first_time_level_only (cfg : ModelCfg) (conserveSurfaceVolume : Bool)
    (rcm : IntQuantities → ℕ → Evaluation) (a : FluxArgs)
    (sel : Fin 3 → ℕ × Evaluation) (mods : List EqVector) (flux0 : EqVector) :
    ∀ timeIdx : ℕ,
      (computeFlux cfg conserveSurfaceVolume rcm a sel mods flux0 timeIdx).isSome
        ↔ timeIdx = 0 := by
  intro t
  unfold computeFlux
  split <;> simp_all

/-- C10: `computeStorage` and `computeFlux` zero-assign the output vector
before accumulating, so their results do not depend on its initial
contents; `computeSource` forwards the vector directly to the problem
callback, so the same independence fails there (witnessed by the identity
callback). -/
theorem claimC10_output_vector_reset :
    (∀ (cfg : ModelCfg) (csv b : Bool) (iq : IntQuantities) (t : ℕ)
        (mods : List EqVector) (s1 s2 : EqVector),
      computeStorage cfg csv b iq t mods s1 = computeStorage cfg csv b iq t mods s2)
    ∧ (∀ (cfg : ModelCfg) (csv : Bool) (rcm : IntQuantities → ℕ → Evaluation)
        (a : FluxArgs) (sel : Fin 3 → ℕ × Evaluation) (mods : List EqVector)
        (t : ℕ) (f1 f2 : EqVector),
      computeFlux cfg csv rcm a sel mods f1 t = computeFlux cfg csv rcm a sel mods f2 t)
    ∧ (∃ (cfg : ModelCfg) (pS : EqVector → EqVector) (micp s1 s2 : EqVector),
      computeSource cfg pS micp s1 ≠ computeSource cfg pS micp s2) := by
  refine ⟨fun _ _ _ _ _ _ _ _ => rfl, fun _ _ _ _ _ _ _ _ _ => rfl,
    ⟨exCfg, id, fun _ => 0, fun _ => 0, fun _ => Evaluation.constE 1, fun h => ?_⟩⟩
  have h0 := congrArg Evaluation.val (congrFun h 0)
  simp [computeSource, exCfg, Evaluation.constE] at h0

/-- C8: `computeSource` first delegates to the problem callback, then adds
the module (MICP) contribution, and finally — when energy is enabled —
scales the energy equation's slot of the combined result by the configured
factor, so module contributions are scaled too; all other slots are the
plain sum. -/
theorem claimC8_source_delegation_then_scaling (cfg : ModelCfg)
    (problemSource : EqVector → EqVector) (micpSource source0 : EqVector) :
    ∀ j, computeSource cfg problemSource micpSource source0 j =
      if cfg.enableEnergy ∧ j = cfg.ix.contiEnergyEqIdx then
        (problemSource source0 + micpSource) j * Evaluation.constE cfg.energyScalingFactor
      else (problemSource source0 + micpSource) j := by
  intro j
  unfold computeSource
  by_cases hE : cfg.enableEnergy <;>
    by_cases hj : j = cfg.ix.contiEnergyEqIdx <;>
      simp [hE, hj, scaleSlot_apply]

set_option maxHeartbeats 2000000 in
theorem storagePhaseContrib_active_apply (cfg : ModelCfg) (b : Bool) (iq : IntQuantities)
    (t : ℕ) (p : Fin 3) (storage : EqVector) (j : Fin 4)
    (hp : cfg.fs.phaseIsActive p = true) :
    storagePhaseContrib cfg b iq t p storage j =
      storage j
      + (if j = eqSlot cfg (solventComponentIndex p) then
          Evaluation.decayTo b (iq.fluidState.saturation p) *
            Evaluation.decayTo b (iq.fluidState.invB p) *
            Evaluation.decayTo b iq.porosity else 0)
      + (if p = oilPhaseIdx ∧ cfg.fs.enableDissolvedGas ∧ j = eqSlot cfg gasCompIdx then
          Evaluation.decayTo b iq.fluidState.Rs *
            (Evaluation.decayTo b (iq.fluidState.saturation p) *
              Evaluation.decayTo b (iq.fluidState.invB p) *
              Evaluation.decayTo b iq.porosity) else 0)
      + (if p = gasPhaseIdx ∧ cfg.fs.enableVaporizedOil ∧ j = eqSlot cfg oilCompIdx then
          Evaluation.decayTo b iq.fluidState.Rv *
            (Evaluation.decayTo b (iq.fluidState.saturation p) *
              Evaluation.decayTo b (iq.fluidState.invB p) *
              Evaluation.decayTo b iq.porosity) else 0)
      + (if p = gasPhaseIdx ∧ cfg.fs.enableVaporizedWater ∧ j = eqSlot cfg waterCompIdx then
          Evaluation.decayTo b iq.fluidState.Rvw *
            (Evaluation.decayTo b (iq.fluidState.saturation p) *
              Evaluation.decayTo b (iq.fluidState.invB p) *
              Evaluation.decayTo b iq.porosity) else 0) := by
  apply Evaluation.ext
  · simp only [storagePhaseContrib, hp, ite_true, ite_apply, addToSlot_apply,
      ← ite_and, and_assoc, apply_ite Evaluation.val, Evaluation.val_add,
      Evaluation.val_mul, Evaluation.val_decayTo, Evaluation.val_zero]
    split_ifs <;> ring
  · intro i
    simp only [storagePhaseContrib, hp, ite_true, ite_apply, addToSlot_apply,
      ← ite_and, and_assoc, apply_ite (fun e : Evaluation => e.deriv i),
      Evaluation.deriv_add, Evaluation.deriv_mul, Evaluation.val_decayTo,
      Evaluation.deriv_decayTo, Evaluation.deriv_zero, Evaluation.val_zero]
    split_ifs <;> ring

theorem fin3_ne_zero_one : ¬ ((0 : Fin 3) = 1) := by decide
theorem fin3_ne_zero_two : ¬ ((0 : Fin 3) = 2) := by decide
theorem fin3_ne_one_zero : ¬ ((1 : Fin 3) = 0) := by decide
theorem fin3_ne_one_two : ¬ ((1 : Fin 3) = 2) := by decide
theorem fin3_ne_two_zero : ¬ ((2 : Fin 3) = 0) := by decide
theorem fin3_ne_two_one : ¬ ((2 : Fin 3) = 1) := by decide

/-- C2: with every phase active, `computeStorage` (surface-volume mode, core
contributions) puts `saturation * invB * porosity` of each phase into that
phase's own component slot, adds `Rs ×` the oil phase's surface volume to the
gas slot when dissolved gas is enabled, `Rv ×` the gas phase's surface volume
to the oil slot when vaporized oil is enabled, and `Rvw ×` the gas phase's
surface volume to the water slot when vaporized water is enabled. -/
theorem claimC2_storage_accumulation (cfg : ModelCfg) (b : Bool) (iq : IntQuantities)
    (timeIdx : ℕ) (s0 : EqVector)
    (hAll : ∀ p, cfg.fs.phaseIsActive p = true) :
    ∀ j, computeStorage cfg true b iq timeIdx [] s0 j =
      (if j = eqSlot cfg waterCompIdx then
        Evaluation.decayTo b (iq.fluidState.saturation waterPhaseIdx) *
          Evaluation.decayTo b (iq.fluidState.invB waterPhaseIdx) *
          Evaluation.decayTo b iq.porosity else 0)
      + (if j = eqSlot cfg oilCompIdx then
        Evaluation.decayTo b (iq.fluidState.saturation oilPhaseIdx) *
          Evaluation.decayTo b (iq.fluidState.invB oilPhaseIdx) *
          Evaluation.decayTo b iq.porosity else 0)
      + (if j = eqSlot cfg gasCompIdx then
        Evaluation.decayTo b (iq.fluidState.saturation gasPhaseIdx) *
          Evaluation.decayTo b (iq.fluidState.invB gasPhaseIdx) *
          Evaluation.decayTo b iq.porosity else 0)
      + (if cfg.fs.enableDissolvedGas ∧ j = eqSlot cfg gasCompIdx then
        Evaluation.decayTo b iq.fluidState.Rs *
          (Evaluation.decayTo b (iq.fluidState.saturation oilPhaseIdx) *
            Evaluation.decayTo b (iq.fluidState.invB oilPhaseIdx) *
            Evaluation.decayTo b iq.porosity) else 0)
      + (if cfg.fs.enableVaporizedOil ∧ j = eqSlot cfg oilCompIdx then
        Evaluation.decayTo b iq.fluidState.Rv *
          (Evaluation.decayTo b (iq.fluidState.saturation gasPhaseIdx) *
            Evaluation.decayTo b (iq.fluidState.invB gasPhaseIdx) *
            Evaluation.decayTo b iq.porosity) else 0)
      + (if cfg.fs.enableVaporizedWater ∧ j = eqSlot cfg waterCompIdx then
        Evaluation.decayTo b iq.fluidState.Rvw *
          (Evaluation.decayTo b (iq.fluidState.saturation gasPhaseIdx) *
            Evaluation.decayTo b (iq.fluidState.invB gasPhaseIdx) *
            Evaluation.decayTo b iq.porosity) else 0) := by
  intro j
  unfold computeStorage applyModules adaptMassConservationQuantities_ computeStorageCore
  simp only [List.foldl, if_true]
  rw [storagePhaseContrib_active_apply _ _ _ _ _ _ _ (hAll 2),
    storagePhaseContrib_active_apply _ _ _ _ _ _ _ (hAll 1),
    storagePhaseContrib_active_apply _ _ _ _ _ _ _ (hAll 0)]
  apply Evaluation.ext
  · simp only [solventComponentIndex, fin3_ne_zero_one, fin3_ne_zero_two,
      fin3_ne_one_zero, fin3_ne_one_two, fin3_ne_two_zero, fin3_ne_two_one,
      false_and, true_and, if_false, if_true, and_assoc, eq_self_iff_true,
      apply_ite Evaluation.val, Evaluation.val_add, Evaluation.val_mul,
      Evaluation.val_decayTo, Evaluation.val_zero]
    ring
  · intro i
    simp only [solventComponentIndex, fin3_ne_zero_one, fin3_ne_zero_two,
      fin3_ne_one_zero, fin3_ne_one_two, fin3_ne_two_zero, fin3_ne_two_one,
      false_and, true_and, if_false, if_true, and_assoc,
      apply_ite (fun e : Evaluation => e.deriv i), Evaluation.deriv_add,
      Evaluation.deriv_mul, Evaluation.val_decayTo, Evaluation.deriv_decayTo,
      Evaluation.deriv_zero, Evaluation.val_zero]
    ring

/-- C2 witness: the storage accumulation theorem instantiated at the example
configuration (all phases active), the example intensive quantities, and the
gas component's equation slot. -/
theorem claimC2_storage_accumulation_witness :
    computeStorage exCfg true true exIQ 0 [] (fun _ => 0) (eqSlot exCfg gasCompIdx) =
      (if eqSlot exCfg gasCompIdx = eqSlot exCfg waterCompIdx then
        Evaluation.decayTo true (exIQ.fluidState.saturation waterPhaseIdx) *
          Evaluation.decayTo true (exIQ.fluidState.invB waterPhaseIdx) *
          Evaluation.decayTo true exIQ.porosity else 0)
      + (if eqSlot exCfg gasCompIdx = eqSlot exCfg oilCompIdx then
        Evaluation.decayTo true (exIQ.fluidState.saturation oilPhaseIdx) *
          Evaluation.decayTo true (exIQ.fluidState.invB oilPhaseIdx) *
          Evaluation.decayTo true exIQ.porosity else 0)
      + (if eqSlot exCfg gasCompIdx = eqSlot exCfg gasCompIdx then
        Evaluation.decayTo true (exIQ.fluidState.saturation gasPhaseIdx) *
          Evaluation.decayTo true (exIQ.fluidState.invB gasPhaseIdx) *
          Evaluation.decayTo true exIQ.porosity else 0)
      + (if exCfg.fs.enableDissolvedGas ∧ eqSlot exCfg gasCompIdx = eqSlot exCfg gasCompIdx then
        Evaluation.decayTo true exIQ.fluidState.Rs *
          (Evaluation.decayTo true (exIQ.fluidState.saturation oilPhaseIdx) *
            Evaluation.decayTo true (exIQ.fluidState.invB oilPhaseIdx) *
            Evaluation.decayTo true exIQ.porosity) else 0)
      + (if exCfg.fs.enableVaporizedOil ∧ eqSlot exCfg gasCompIdx = eqSlot exCfg oilCompIdx then
        Evaluation.decayTo true exIQ.fluidState.Rv *
          (Evaluation.decayTo true (exIQ.fluidState.saturation gasPhaseIdx) *
            Evaluation.decayTo true (exIQ.fluidState.invB gasPhaseIdx) *
            Evaluation.decayTo true exIQ.porosity) else 0)
      + (if exCfg.fs.enableVaporizedWater ∧ eqSlot exCfg gasCompIdx = eqSlot exCfg waterCompIdx then
        Evaluation.decayTo true exIQ.fluidState.Rvw *
          (Evaluation.decayTo true (exIQ.fluidState.saturation gasPhaseIdx) *
            Evaluation.decayTo true (exIQ.fluidState.invB gasPhaseIdx) *
            Evaluation.decayTo true exIQ.porosity) else 0) :=
  claimC2_storage_accumulation exCfg true exIQ 0 (fun _ => 0) (fun _ => rfl)
    (eqSlot exCfg gasCompIdx)

theorem storagePhaseContrib_preserves_other_slot (cfg : ModelCfg) (b : Bool)
    (iq : IntQuantities) (t : ℕ) (q : Fin 3) (storage : EqVector) (j : Fin 4)
    (hmain : ¬ j = eqSlot cfg (solventComponentIndex q))
    (hgas : ¬(q = oilPhaseIdx ∧ cfg.fs.enableDissolvedGas ∧ j = eqSlot cfg gasCompIdx))
    (hoil : ¬(q = gasPhaseIdx ∧ cfg.fs.enableVaporizedOil ∧ j = eqSlot cfg oilCompIdx))
    (hwat : ¬(q = gasPhaseIdx ∧ cfg.fs.enableVaporizedWater ∧ j = eqSlot cfg waterCompIdx)) :
    storagePhaseContrib cfg b iq t q storage j = storage j := by
  by_cases hq : cfg.fs.phaseIsActive q = true
  · rw [storagePhaseContrib_active_apply cfg b iq t q storage j hq,
      if_neg hmain, if_neg hgas, if_neg hoil, if_neg hwat]
    apply Evaluation.ext <;> intros <;> simp
  · have hq' : cfg.fs.phaseIsActive q = false := by
      simpa using hq
    simp only [storagePhaseContrib, hq', Bool.false_eq_true, if_false, ite_apply,
      setSlot_apply, hmain, ite_self]

theorem adapt_preserves_other_slot (cfg : ModelCfg) (csv : Bool) (pvt : ℕ)
    (container : EqVector) (j : Fin 4)
    (hw : ¬(cfg.ix.waterEnabled ∧ j = eqSlot cfg waterCompIdx))
    (hg : ¬(cfg.ix.gasEnabled ∧ j = eqSlot cfg gasCompIdx))
    (ho : ¬(cfg.ix.oilEnabled ∧ j = eqSlot cfg oilCompIdx)) :
    adaptMassConservationQuantities_ cfg csv pvt container j = container j := by
  simp only [adaptMassConservationQuantities_, ite_apply, scaleSlot_apply]
  split_ifs <;> first | rfl | tauto

theorem storagePhaseContrib_inactive_own_slot (cfg : ModelCfg) (b : Bool)
    (iq : IntQuantities) (t : ℕ) (p : Fin 3) (storage : EqVector)
    (hInactive : cfg.fs.phaseIsActive p = false) (hNum : cfg.ix.numPhases = 3) :
    storagePhaseContrib cfg b iq t p storage (eqSlot cfg (solventComponentIndex p)) =
      if t = 0 then
        mkLhsVariable b 0 ((eqSlot cfg (solventComponentIndex p)) : ℕ)
      else Evaluation.constE 0 := by
  simp only [storagePhaseContrib, hInactive, Bool.false_eq_true, if_false, hNum,
    ite_apply, setSlot_apply, eq_self_iff_true, ite_true, if_true]

/-- C7: an inactive phase, under the three-phase numbering convention
(`Indices::numPhases == 3`), has its equation slot set by `computeStorage` to
the trivial pseudo-equation: at the first time level a dual number with value
zero seeded with respect to its own equation index, at later time levels the
plain scalar zero — with no saturation, invB, or dissolution/vaporization
contribution reaching that slot. -/
theorem claimC7_inactive_phase_pseudo_equation (cfg : ModelCfg) (csv : Bool)
    (iq : IntQuantities) (s0 : EqVector) (p : Fin 3)
    (hInactive : cfg.fs.phaseIsActive p = false)
    (hNum : cfg.ix.numPhases = 3)
    (hInj : Function.Injective cfg.ix.canonicalToActiveComponentIndex)
    (hw : p = waterPhaseIdx → cfg.fs.enableVaporizedWater = false)
    (ho : p = oilPhaseIdx → cfg.fs.enableVaporizedOil = false)
    (hg : p = gasPhaseIdx → cfg.fs.enableDissolvedGas = false)
    (hwe : p = waterCompIdx → cfg.ix.waterEnabled = false)
    (hoe : p = oilCompIdx → cfg.ix.oilEnabled = false)
    (hge : p = gasCompIdx → cfg.ix.gasEnabled = false) :
    ∀ t, computeStorage cfg csv true iq t [] s0 (eqSlot cfg (solventComponentIndex p)) =
      if t = 0 then
        Evaluation.varE 0 ((eqSlot cfg (solventComponentIndex p)) : ℕ)
      else Evaluation.constE 0 := by
  intro t
  have slotNe : ∀ a c : Fin 3, a ≠ c → ¬ (eqSlot cfg a = eqSlot cfg c) :=
    fun a c hac h => hac (hInj h)
  have nw : ¬(cfg.ix.waterEnabled ∧
      eqSlot cfg (solventComponentIndex p) = eqSlot cfg waterCompIdx) := by
    rintro ⟨he, hsl⟩
    have hp : p = waterCompIdx := hInj hsl
    simp [hwe hp] at he
  have ng : ¬(cfg.ix.gasEnabled ∧
      eqSlot cfg (solventComponentIndex p) = eqSlot cfg gasCompIdx) := by
    rintro ⟨he, hsl⟩
    have hp : p = gasCompIdx := hInj hsl
    simp [hge hp] at he
  have no' : ¬(cfg.ix.oilEnabled ∧
      eqSlot cfg (solventComponentIndex p) = eqSlot cfg oilCompIdx) := by
    rintro ⟨he, hsl⟩
    have hp : p = oilCompIdx := hInj hsl
    simp [hoe hp] at he
  unfold computeStorage applyModules computeStorageCore
  simp only [List.foldl]
  rw [adapt_preserves_other_slot _ _ _ _ _ nw ng no']
  have hp : p = 0 ∨ p = 1 ∨ p = 2 := by
    have hlt := p.isLt
    have hv : p.val = 0 ∨ p.val = 1 ∨ p.val = 2 := by omega
    rcases hv with h | h | h
    · exact Or.inl (Fin.ext h)
    · exact Or.inr (Or.inl (Fin.ext h))
    · exact Or.inr (Or.inr (Fin.ext h))
  rcases hp with rfl | rfl | rfl
  · rw [storagePhaseContrib_preserves_other_slot _ _ _ _ 2 _ _
        (slotNe (solventComponentIndex 0) (solventComponentIndex 2) (by decide))
        (by rintro ⟨h, -⟩; exact absurd h (by decide))
        (by rintro ⟨-, -, h⟩
            exact slotNe (solventComponentIndex 0) oilCompIdx (by decide) h)
        (by rintro ⟨-, h, -⟩; simp [hw (by decide)] at h),
      storagePhaseContrib_preserves_other_slot _ _ _ _ 1 _ _
        (slotNe (solventComponentIndex 0) (solventComponentIndex 1) (by decide))
        (by rintro ⟨-, -, h⟩
            exact slotNe (solventComponentIndex 0) gasCompIdx (by decide) h)
        (by rintro ⟨h, -⟩; exact absurd h (by decide))
        (by rintro ⟨h, -⟩; exact absurd h (by decide)),
      storagePhaseContrib_inactive_own_slot _ _ _ _ _ _ hInactive hNum]
    rfl
  · rw [storagePhaseContrib_preserves_other_slot _ _ _ _ 2 _ _
        (slotNe (solventComponentIndex 1) (solventComponentIndex 2) (by decide))
        (by rintro ⟨h, -⟩; exact absurd h (by decide))
        (by rintro ⟨-, h, -⟩; simp [ho (by decide)] at h)
        (by rintro ⟨-, -, h⟩
            exact slotNe (solventComponentIndex 1) waterCompIdx (by decide) h),
      storagePhaseContrib_inactive_own_slot _ _ _ _ _ _ hInactive hNum]
    rfl
  · rw [storagePhaseContrib_inactive_own_slot _ _ _ _ _ _ hInactive hNum]
    rfl

/-- C7 witness: the pseudo-equation theorem instantiated at the example
configuration with an inactive gas phase, at the first and the second time
level. -/
theorem claimC7_inactive_phase_pseudo_equation_witness :
    (computeStorage exCfgInactive true true exIQ 0 [] (fun _ => 0)
        (eqSlot exCfgInactive (solventComponentIndex gasPhaseIdx)) =
      if (0 : ℕ) = 0 then
        Evaluation.varE 0 ((eqSlot exCfgInactive (solventComponentIndex gasPhaseIdx)) : ℕ)
      else Evaluation.constE 0)
    ∧ (computeStorage exCfgInactive true true exIQ 1 [] (fun _ => 0)
        (eqSlot exCfgInactive (solventComponentIndex gasPhaseIdx)) =
      if (1 : ℕ) = 0 then
        Evaluation.varE 0 ((eqSlot exCfgInactive (solventComponentIndex gasPhaseIdx)) : ℕ)
      else Evaluation.constE 0) :=
  ⟨claimC7_inactive_phase_pseudo_equation exCfgInactive true exIQ (fun _ => 0)
    gasPhaseIdx (by decide) (by decide) (by decide) (by decide) (by decide)
    (by decide) (by decide) (by decide) (by decide) 0,
   claimC7_inactive_phase_pseudo_equation exCfgInactive true exIQ (fun _ => 0)
    gasPhaseIdx (by decide) (by decide) (by decide) (by decide) (by decide)
    (by decide) (by decide) (by decide) (by decide) 1⟩

theorem addToSlot_add_apply (v : EqVector) (s : Fin 4) (e : Evaluation) (j : Fin 4) :
    addToSlot v s e j = v j + (if j = s then e else 0) := by
  unfold addToSlot
  split_ifs
  · rfl
  · exact (Evaluation.add_zeroE _).symm

theorem ite_add_distribE (C : Prop) [Decidable C] (x a b : Evaluation) :
    (if C then x + a else x + b) = x + (if C then a else b) := by
  split_ifs <;> rfl

theorem ite_ite_swap (C D : Prop) [Decidable C] [Decidable D] (a b : Evaluation) :
    (if C then (if D then a else 0) else (if D then b else 0)) =
      if D then (if C then a else b) else 0 := by
  split_ifs <;> rfl

theorem ite_add_liftE (C : Prop) [Decidable C] (x y : Evaluation) :
    (if C then x + y else x) = x + (if C then y else 0) := by
  split_ifs
  · rfl
  · exact (Evaluation.add_zeroE _).symm

theorem evalPhaseFluxes_apply (cfg : ModelCfg) (csv keep : Bool) (p : Fin 3)
    (pvt : ℕ) (svf : Evaluation) (fs : FluidState) (flux : EqVector) (j : Fin 4) :
    evalPhaseFluxes_ cfg csv keep p pvt svf fs flux j =
      flux j
      + (if j = eqSlot cfg (solventComponentIndex p) then
          (if csv then svf
           else svf * Evaluation.constE (cfg.fs.referenceDensity p pvt)) else 0)
      + (if p = oilPhaseIdx ∧ cfg.fs.enableDissolvedGas ∧ j = eqSlot cfg gasCompIdx then
          (if csv then getRs_ keep fs pvt * svf
           else getRs_ keep fs pvt * svf *
             Evaluation.constE (cfg.fs.referenceDensity gasPhaseIdx pvt)) else 0)
      + (if p = gasPhaseIdx ∧ cfg.fs.enableVaporizedOil ∧ j = eqSlot cfg oilCompIdx then
          (if csv then getRv_ keep fs pvt * svf
           else getRv_ keep fs pvt * svf *
             Evaluation.constE (cfg.fs.referenceDensity oilPhaseIdx pvt)) else 0)
      + (if p = gasPhaseIdx ∧ cfg.fs.enableVaporizedWater ∧ j = eqSlot cfg waterCompIdx then
          (if csv then getRvw_ keep fs pvt * svf
           else getRvw_ keep fs pvt * svf *
             Evaluation.constE (cfg.fs.referenceDensity waterPhaseIdx pvt)) else 0) := by
  simp only [evalPhaseFluxes_, ite_apply, addToSlot_add_apply, ite_add_distribE,
    ite_ite_swap, ite_add_liftE, ← ite_and, and_assoc]

theorem evalPhaseFluxes_mass_scaling (cfg : ModelCfg) (keep : Bool) (p : Fin 3)
    (pvt : ℕ) (svf : Evaluation) (fs : FluidState) (c : Fin 3)
    (hInj : Function.Injective cfg.ix.canonicalToActiveComponentIndex) :
    evalPhaseFluxes_ cfg false keep p pvt svf fs (fun _ => 0) (eqSlot cfg c) =
      Evaluation.constE (cfg.fs.referenceDensity (mainPhaseOfComponent c) pvt) *
        evalPhaseFluxes_ cfg true keep p pvt svf fs (fun _ => 0) (eqSlot cfg c) := by
  rw [evalPhaseFluxes_apply, evalPhaseFluxes_apply]
  have hs : ∀ a b : Fin 3, (eqSlot cfg a = eqSlot cfg b) = (a = b) := fun a b => by
    unfold eqSlot
    exact propext hInj.eq_iff
  simp only [hs, Bool.false_eq_true, if_false, if_true]
  split_ifs <;>
    simp_all [mainPhaseOfComponent, solventComponentIndex] <;>
      (apply Evaluation.ext <;> intros <;> simp <;> ring)

theorem Evaluation.add_assocE (a b c : Evaluation) : a + b + c = a + (b + c) := by
  apply Evaluation.ext <;> intros <;> simp <;> ring

theorem Evaluation.zero_addE (a : Evaluation) : 0 + a = a := by
  apply Evaluation.ext <;> intros <;> simp

theorem foldl_addE (j : Fin 4) :
    ∀ (ms : List EqVector) (a : Evaluation),
      ms.foldl (fun q m => q + m j) a = a + ms.foldl (fun q m => q + m j) 0 := by
  intro ms
  induction ms with
  | nil => intro a; exact (Evaluation.add_zeroE a).symm
  | cons m ms ih =>
      intro a
      simp only [List.foldl]
      rw [ih (a + m j), ih (0 + m j), Evaluation.zero_addE, Evaluation.add_assocE]

theorem applyModules_apply (mods : List EqVector) (s : EqVector) (j : Fin 4) :
    applyModules mods s j = s j + mods.foldl (fun q m => q + m j) 0 := by
  induction mods generalizing s with
  | nil => exact (Evaluation.add_zeroE (s j)).symm
  | cons m ms ih =>
      simp only [applyModules, List.foldl] at *
      rw [ih (s + m), foldl_addE j ms (0 + m j), Evaluation.zero_addE]
      simp only [Pi.add_apply]
      rw [Evaluation.add_assocE]

/-- C4 counterexample: at a concrete input with one module contribution and
mass conservation configured (water reference density 2), `computeStorage`
does not equal the conversion applied after all module contributions: the
code converts the core accumulation first and then adds the module
contribution unscaled. -/
theorem claimC4_counterexample :
    computeStorage exCfg false true exIQzero 1 [exModVec] (fun _ => 0) ≠
      adaptMassConservationQuantities_ exCfg false exIQzero.pvtRegionIndex
        (applyModules [exModVec] (computeStorageCore exCfg true exIQzero 1)) := by
  intro h
  have h0 := congrArg Evaluation.val (congrFun h 0)
  simp [computeStorage, applyModules, adaptMassConservationQuantities_,
    computeStorageCore, storagePhaseContrib, exCfg, exIQzero, exModVec,
    List.foldl, eqSlot, solventComponentIndex, Evaluation.decayTo,
    addToSlot_apply, scaleSlot_apply, setSlot_apply, ite_apply,
    Evaluation.constE, Fin.castSucc, Fin.castAdd, Fin.castLE] at h0

/-- C4 (amended): the reference-density multiplication is a single step of
`computeStorage` applied after the phase accumulation but before the module
contributions (which are therefore not rescaled), and in the flux path the
density factors are applied inline per component term inside
`evalPhaseFluxes_`, which is componentwise equivalent to scaling the
surface-volume-mode fluxes. -/
theorem claimC4_mass_conversion_placement (cfg : ModelCfg) (csv b : Bool)
    (iq : IntQuantities) (t : ℕ) (mods : List EqVector) (s0 : EqVector) :
    (∀ j, computeStorage cfg csv b iq t mods s0 j =
      adaptMassConservationQuantities_ cfg csv iq.pvtRegionIndex
        (computeStorageCore cfg b iq t) j
        + mods.foldl (fun q m => q + m j) 0)
    ∧ (∀ (keep : Bool) (p : Fin 3) (pvt : ℕ) (svf : Evaluation) (fs : FluidState)
        (c : Fin 3), Function.Injective cfg.ix.canonicalToActiveComponentIndex →
        evalPhaseFluxes_ cfg false keep p pvt svf fs (fun _ => 0) (eqSlot cfg c) =
          Evaluation.constE (cfg.fs.referenceDensity (mainPhaseOfComponent c) pvt) *
            evalPhaseFluxes_ cfg true keep p pvt svf fs (fun _ => 0) (eqSlot cfg c)) :=
  ⟨fun j => applyModules_apply mods _ j,
   fun keep p pvt svf fs c hInj => evalPhaseFluxes_mass_scaling cfg keep p pvt svf fs c hInj⟩

/-- C4 witness: the amended placement theorem instantiated at the
counterexample's inputs (storage part) and at the example fluid state with
the injective example component map (flux part). -/
theorem claimC4_mass_conversion_placement_witness :
    (∀ j, computeStorage exCfg false true exIQzero 1 [exModVec] (fun _ => 0) j =
      adaptMassConservationQuantities_ exCfg false exIQzero.pvtRegionIndex
        (computeStorageCore exCfg true exIQzero 1) j
        + [exModVec].foldl (fun q m => q + m j) 0)
    ∧ evalPhaseFluxes_ exCfg false true waterPhaseIdx 0 (Evaluation.constE 1) exFS
        (fun _ => 0) (eqSlot exCfg waterCompIdx) =
      Evaluation.constE (exCfg.fs.referenceDensity (mainPhaseOfComponent waterCompIdx) 0) *
        evalPhaseFluxes_ exCfg true true waterPhaseIdx 0 (Evaluation.constE 1) exFS
          (fun _ => 0) (eqSlot exCfg waterCompIdx) :=
  ⟨(claimC4_mass_conversion_placement exCfg false true exIQzero 1 [exModVec] (fun _ => 0)).1,
   (claimC4_mass_conversion_placement exCfg false true exIQzero 1 [exModVec] (fun _ => 0)).2
     true waterPhaseIdx 0 (Evaluation.constE 1) exFS waterCompIdx (by decide)⟩

theorem adapt_mass_scaling (cfg : ModelCfg) (pvt : ℕ) (container : EqVector)
    (c : Fin 3)
    (hInj : Function.Injective cfg.ix.canonicalToActiveComponentIndex)
    (hW : cfg.ix.waterEnabled = true) (hG : cfg.ix.gasEnabled = true)
    (hO : cfg.ix.oilEnabled = true) :
    adaptMassConservationQuantities_ cfg false pvt container (eqSlot cfg c) =
      Evaluation.constE (cfg.fs.referenceDensity (mainPhaseOfComponent c) pvt) *
        container (eqSlot cfg c) := by
  have hs : ∀ a b : Fin 3, (eqSlot cfg a = eqSlot cfg b) = (a = b) := fun a b => by
    unfold eqSlot
    exact propext hInj.eq_iff
  have hc : c = 0 ∨ c = 1 ∨ c = 2 := by
    have hlt := c.isLt
    have hv : c.val = 0 ∨ c.val = 1 ∨ c.val = 2 := by omega
    rcases hv with h | h | h
    · exact Or.inl (Fin.ext h)
    · exact Or.inr (Or.inl (Fin.ext h))
    · exact Or.inr (Or.inr (Fin.ext h))
  simp only [adaptMassConservationQuantities_, Bool.false_eq_true, if_false, hW,
    hG, hO, if_true, ite_apply, scaleSlot_apply, hs]
  rcases hc with rfl | rfl | rfl <;>
    simp [mainPhaseOfComponent, fin3_ne_zero_one, fin3_ne_zero_two,
      fin3_ne_one_zero, fin3_ne_one_two, fin3_ne_two_zero, fin3_ne_two_one] <;>
      (apply Evaluation.ext <;> intros <;> simp <;> ring)

/-- C6: with all three components enabled and an injective component map,
running `computeStorage` (modules aside) and `evalPhaseFluxes_` in
mass-conservation mode yields, for every component, exactly
`referenceDensity(componentPhase, pvtRegion)` times the surface-volume-mode
result on the same input. -/
theorem claimC6_conservation_mode_equivalence (cfg : ModelCfg) (b : Bool)
    (iq : IntQuantities) (t : ℕ) (s0 : EqVector) (keep : Bool) (p : Fin 3)
    (pvt : ℕ) (svf : Evaluation) (fs : FluidState)
    (hInj : Function.Injective cfg.ix.canonicalToActiveComponentIndex)
    (hW : cfg.ix.waterEnabled = true) (hG : cfg.ix.gasEnabled = true)
    (hO : cfg.ix.oilEnabled = true) :
    ∀ c : Fin 3,
      computeStorage cfg false b iq t [] s0 (eqSlot cfg c) =
        Evaluation.constE
            (cfg.fs.referenceDensity (mainPhaseOfComponent c) iq.pvtRegionIndex) *
          computeStorage cfg true b iq t [] s0 (eqSlot cfg c)
      ∧ evalPhaseFluxes_ cfg false keep p pvt svf fs (fun _ => 0) (eqSlot cfg c) =
        Evaluation.constE (cfg.fs.referenceDensity (mainPhaseOfComponent c) pvt) *
          evalPhaseFluxes_ cfg true keep p pvt svf fs (fun _ => 0) (eqSlot cfg c) := by
  intro c
  constructor
  · exact adapt_mass_scaling cfg iq.pvtRegionIndex _ c hInj hW hG hO
  · exact evalPhaseFluxes_mass_scaling cfg keep p pvt svf fs c hInj

/-- C6 witness: the conservation-mode equivalence instantiated at the example
configuration, intensive quantities and fluid state, at the gas component. -/
theorem claimC6_conservation_mode_equivalence_witness :
    computeStorage exCfg false true exIQ 0 [] (fun _ => 0) (eqSlot exCfg gasCompIdx) =
      Evaluation.constE
          (exCfg.fs.referenceDensity (mainPhaseOfComponent gasCompIdx) exIQ.pvtRegionIndex) *
        computeStorage exCfg true true exIQ 0 [] (fun _ => 0) (eqSlot exCfg gasCompIdx)
    ∧ evalPhaseFluxes_ exCfg false false oilPhaseIdx 0 (Evaluation.constE 3) exFS
        (fun _ => 0) (eqSlot exCfg gasCompIdx) =
      Evaluation.constE (exCfg.fs.referenceDensity (mainPhaseOfComponent gasCompIdx) 0) *
        evalPhaseFluxes_ exCfg true false oilPhaseIdx 0 (Evaluation.constE 3) exFS
          (fun _ => 0) (eqSlot exCfg gasCompIdx) :=
  claimC6_conservation_mode_equivalence exCfg true exIQ 0 (fun _ => 0) false
    oilPhaseIdx 0 (Evaluation.constE 3) exFS (by decide) (by decide) (by decide)
    (by decide) gasCompIdx

theorem darcyFlux_val (c : Prop) [Decidable c] (pd mob tm : Evaluation)
    (trans faceArea : ℚ) (h : ¬ pd.val = 0) :
    (darcyFlux_ c pd mob tm trans faceArea).val =
      pd.val * (mob.val * (tm.val * (-trans / faceArea))) := by
  unfold darcyFlux_
  rw [if_neg h]
  split_ifs <;>
    (simp only [Evaluation.val_mul, Evaluation.val_constE]; ring)

/-- C1: for an active phase with a non-zero potential difference, the
per-phase flux contribution of `computeFlux` has, in every slot, the value
of the Darcy flux `pd * upstreamMobility * transMultiplier *
(-trans/faceArea)` converted by the upstream inverse formation-volume-factor
and distributed with the upstream fluid state's Rs/Rv/Rvw and the upstream
PVT region's reference densities; moreover the downstream side's intensive
quantities contribute nothing (replacing them changes nothing). -/
theorem claimC1_flux_darcy_upwind (cfg : ModelCfg) (csv : Bool)
    (rcm : IntQuantities → ℕ → Evaluation) (a : FluxArgs) (p : Fin 3) (upIdx : ℕ)
    (pd : Evaluation) (flux0 : EqVector)
    (hActive : cfg.fs.phaseIsActive p = true)
    (hpd : ¬ pd.val = 0) :
    (∀ j, (phaseFluxContrib cfg csv rcm a p upIdx pd flux0 j).val =
      (let up := if upIdx = a.interiorDofIdx then a.inQ else a.exQ;
       let gi := if upIdx = a.interiorDofIdx then a.globalIndexIn else a.globalIndexEx;
       let svfval := (up.fluidState.invB p).val *
         (pd.val * ((up.mobility p).val * ((rcm up gi).val * (-a.trans / a.faceArea))));
       (flux0 j).val
       + (if j = eqSlot cfg (solventComponentIndex p) then
           (if csv then svfval
            else svfval * cfg.fs.referenceDensity p up.pvtRegionIndex) else 0)
       + (if p = oilPhaseIdx ∧ cfg.fs.enableDissolvedGas ∧ j = eqSlot cfg gasCompIdx then
           (if csv then up.fluidState.Rs.val * svfval
            else up.fluidState.Rs.val * svfval *
              cfg.fs.referenceDensity gasPhaseIdx up.pvtRegionIndex) else 0)
       + (if p = gasPhaseIdx ∧ cfg.fs.enableVaporizedOil ∧ j = eqSlot cfg oilCompIdx then
           (if csv then up.fluidState.Rv.val * svfval
            else up.fluidState.Rv.val * svfval *
              cfg.fs.referenceDensity oilPhaseIdx up.pvtRegionIndex) else 0)
       + (if p = gasPhaseIdx ∧ cfg.fs.enableVaporizedWater ∧ j = eqSlot cfg waterCompIdx then
           (if csv then up.fluidState.Rvw.val * svfval
            else up.fluidState.Rvw.val * svfval *
              cfg.fs.referenceDensity waterPhaseIdx up.pvtRegionIndex) else 0)))
    ∧ (upIdx = a.interiorDofIdx → ∀ exQ2,
        phaseFluxContrib cfg csv rcm a p upIdx pd flux0 =
          phaseFluxContrib cfg csv rcm { a with exQ := exQ2 } p upIdx pd flux0)
    ∧ (¬ upIdx = a.interiorDofIdx → ∀ inQ2,
        phaseFluxContrib cfg csv rcm a p upIdx pd flux0 =
          phaseFluxContrib cfg csv rcm { a with inQ := inQ2 } p upIdx pd flux0) := by
  refine ⟨?_, ?_, ?_⟩
  · intro j
    have hdv : ∀ mob tm : Evaluation,
        (darcyFlux_ (upIdx = a.interiorDofIdx) pd mob tm a.trans a.faceArea).val =
          pd.val * (mob.val * (tm.val * (-a.trans / a.faceArea))) :=
      fun mob tm => darcyFlux_val _ pd mob tm a.trans a.faceArea hpd
    simp only [phaseFluxContrib, ite_apply, evalPhaseFluxes_apply, getInvB_,
      getRs_, getRv_, getRvw_, apply_ite Evaluation.val, Evaluation.val_add,
      Evaluation.val_mul, Evaluation.val_decayTo, Evaluation.val_constE,
      Evaluation.val_zero, hdv, ite_self]
  · intro h exQ2
    subst h
    funext j
    simp only [phaseFluxContrib]
    dsimp
  · intro h inQ2
    funext j
    simp only [phaseFluxContrib]
    dsimp
    simp only [h, if_false]

/-- C1 witness: the Darcy/upwind flux theorem instantiated at the example
face with the interior dof upstream and potential difference 2. -/
theorem claimC1_flux_darcy_upwind_witness :
    (∀ j, (phaseFluxContrib exCfg true exRcm exArgs waterPhaseIdx 0
        (Evaluation.constE 2) (fun _ => 0) j).val =
      (let up := if 0 = exArgs.interiorDofIdx then exArgs.inQ else exArgs.exQ;
       let gi := if 0 = exArgs.interiorDofIdx then exArgs.globalIndexIn
         else exArgs.globalIndexEx;
       let svfval := (up.fluidState.invB waterPhaseIdx).val *
         ((Evaluation.constE 2).val * ((up.mobility waterPhaseIdx).val *
           ((exRcm up gi).val * (-exArgs.trans / exArgs.faceArea))));
       ((fun _ : Fin 4 => (0 : Evaluation)) j).val
       + (if j = eqSlot exCfg (solventComponentIndex waterPhaseIdx) then
           (if true then svfval
            else svfval * exCfg.fs.referenceDensity waterPhaseIdx up.pvtRegionIndex) else 0)
       + (if waterPhaseIdx = oilPhaseIdx ∧ exCfg.fs.enableDissolvedGas ∧
             j = eqSlot exCfg gasCompIdx then
           (if true then up.fluidState.Rs.val * svfval
            else up.fluidState.Rs.val * svfval *
              exCfg.fs.referenceDensity gasPhaseIdx up.pvtRegionIndex) else 0)
       + (if waterPhaseIdx = gasPhaseIdx ∧ exCfg.fs.enableVaporizedOil ∧
             j = eqSlot exCfg oilCompIdx then
           (if true then up.fluidState.Rv.val * svfval
            else up.fluidState.Rv.val * svfval *
              exCfg.fs.referenceDensity oilPhaseIdx up.pvtRegionIndex) else 0)
       + (if waterPhaseIdx = gasPhaseIdx ∧ exCfg.fs.enableVaporizedWater ∧
             j = eqSlot exCfg waterCompIdx then
           (if true then up.fluidState.Rvw.val * svfval
            else up.fluidState.Rvw.val * svfval *
              exCfg.fs.referenceDensity waterPhaseIdx up.pvtRegionIndex) else 0)))
    ∧ (0 = exArgs.interiorDofIdx → ∀ exQ2,
        phaseFluxContrib exCfg true exRcm exArgs waterPhaseIdx 0
            (Evaluation.constE 2) (fun _ => 0) =
          phaseFluxContrib exCfg true exRcm { exArgs with exQ := exQ2 } waterPhaseIdx 0
            (Evaluation.constE 2) (fun _ => 0))
    ∧ (¬ (0 : ℕ) = exArgs.interiorDofIdx → ∀ inQ2,
        phaseFluxContrib exCfg true exRcm exArgs waterPhaseIdx 0
            (Evaluation.constE 2) (fun _ => 0) =
          phaseFluxContrib exCfg true exRcm { exArgs with inQ := inQ2 } waterPhaseIdx 0
            (Evaluation.constE 2) (fun _ => 0)) :=
  claimC1_flux_darcy_upwind exCfg true exRcm exArgs waterPhaseIdx 0
    (Evaluation.constE 2) (fun _ => 0) (by decide)
    (by norm_num [Evaluation.constE])

theorem evalPhaseFluxes_derivFree (cfg : ModelCfg) (csv keep : Bool) (p : Fin 3)
    (pvt : ℕ) (svf : Evaluation) (fs : FluidState) (flux : EqVector) (j : Fin 4)
    (k : Fin 4) (hsvf : svf.deriv k = 0) (hfs : fs.derivFree k)
    (hflux : (flux j).deriv k = 0) :
    (evalPhaseFluxes_ cfg csv keep p pvt svf fs flux j).deriv k = 0 := by
  obtain ⟨hsat, hinvB, hRs, hRv, hRvw⟩ := hfs
  rw [evalPhaseFluxes_apply]
  simp only [Evaluation.deriv_add, apply_ite (fun e : Evaluation => e.deriv k),
    Evaluation.deriv_mul, Evaluation.deriv_constE, Evaluation.deriv_zero,
    getRs_, getRv_, getRvw_, Evaluation.deriv_decayTo, Evaluation.val_decayTo]
  split_ifs <;> simp [hsvf, hRs, hRv, hRvw, hflux]

/-- C3 counterexample: at a concrete face whose focus dof is the exterior dof
and whose upstream dof is that same exterior (= focus) dof, the flux
contribution computed by the code differs from the contribution obtained by
keeping the dual-number path through the Darcy-flux arithmetic — the code
branches the Darcy arithmetic on `upstream = interior`, not on
`upstream = focus` as the claim states, and here it decays the mobility's
derivative. -/
theorem claimC3_counterexample :
    phaseFluxContrib exCfg true exRcm exArgs waterPhaseIdx 1 (Evaluation.constE 1)
        (fun _ => 0) ≠
      evalPhaseFluxes_ exCfg true true waterPhaseIdx exIQ.pvtRegionIndex
        (getInvB_ true exIQ.fluidState waterPhaseIdx exIQ.pvtRegionIndex *
          (Evaluation.constE 1 * exIQ.mobility waterPhaseIdx *
            exRcm exIQ exArgs.globalIndexEx *
            Evaluation.constE (-exArgs.trans / exArgs.faceArea)))
        exIQ.fluidState (fun _ => 0) := by
  intro h
  have h0 := congrArg (fun e : Evaluation => e.deriv 0) (congrFun h 0)
  simp [phaseFluxContrib, darcyFlux_, evalPhaseFluxes_, getInvB_, getRs_,
    getRv_, getRvw_, exCfg, exIQ, exFS, exRcm, exArgs, eqSlot,
    solventComponentIndex, addToSlot_apply, ite_apply, Evaluation.decayTo,
    Evaluation.constE, Fin.castSucc, Fin.castAdd, Fin.castLE] at h0

/-- C3 (amended): in `computeFlux` the dual-number path through the
Darcy-flux arithmetic is kept exactly when the upstream dof is the interior
dof (the mobility and transmissibility multiplier are decayed to plain
scalars when the exterior dof is upstream), while the inverse
formation-volume-factor and the Rs/Rv/Rvw lookups keep the dual-number path
exactly when the upstream dof equals the focus dof; under the seeding
discipline — every derivative slot belonging to a non-focus dof is zero in
all inputs — the flux contribution's derivative in any such slot is exactly
zero. -/
theorem claimC3_derivative_discipline (cfg : ModelCfg) (csv : Bool)
    (rcm : IntQuantities → ℕ → Evaluation) (a : FluxArgs) (p : Fin 3) (upIdx : ℕ)
    (pd : Evaluation) (flux0 : EqVector) :
    (¬ pd.val = 0 →
      (upIdx = a.interiorDofIdx →
        darcyFlux_ (upIdx = a.interiorDofIdx) pd (a.inQ.mobility p)
            (rcm a.inQ a.globalIndexIn) a.trans a.faceArea =
          pd * a.inQ.mobility p * rcm a.inQ a.globalIndexIn *
            Evaluation.constE (-a.trans / a.faceArea))
      ∧ (¬ upIdx = a.interiorDofIdx →
        darcyFlux_ (upIdx = a.interiorDofIdx) pd (a.exQ.mobility p)
            (rcm a.exQ a.globalIndexEx) a.trans a.faceArea =
          pd * Evaluation.constE ((a.exQ.mobility p).val *
            (rcm a.exQ a.globalIndexEx).val * (-a.trans / a.faceArea))))
    ∧ (∀ k : Fin 4, a.inQ.derivFree k → a.exQ.derivFree k → pd.deriv k = 0 →
        (∀ iq n, (rcm iq n).deriv k = 0) → ∀ j, (flux0 j).deriv k = 0 →
        (phaseFluxContrib cfg csv rcm a p upIdx pd flux0 j).deriv k = 0) := by
  constructor
  · intro hpd
    constructor
    · intro h
      unfold darcyFlux_
      rw [if_neg hpd, if_pos h]
    · intro h
      unfold darcyFlux_
      rw [if_neg hpd, if_neg h]
  · intro k hin hex hpdk hrcm j hflux
    by_cases hui : upIdx = a.interiorDofIdx
    · obtain ⟨hfs, hmob, hporo⟩ := hin
      have hdarcy : ∀ (c : Prop) (inst : Decidable c),
          (darcyFlux_ c pd (a.inQ.mobility p) (rcm a.inQ a.globalIndexIn)
            a.trans a.faceArea).deriv k = 0 := by
        intro c inst
        unfold darcyFlux_
        split_ifs <;>
          simp only [Evaluation.deriv_mul, Evaluation.deriv_constE,
            Evaluation.val_mul, Evaluation.val_constE, hpdk, hmob, hrcm,
            Evaluation.deriv_zero, mul_zero, add_zero, zero_mul, zero_add]
      have hsvf : ∀ (keep : Bool) (c : Prop) (inst : Decidable c),
          ((getInvB_ keep a.inQ.fluidState p a.inQ.pvtRegionIndex) *
            darcyFlux_ c pd (a.inQ.mobility p) (rcm a.inQ a.globalIndexIn)
              a.trans a.faceArea).deriv k = 0 := by
        intro keep c inst
        simp only [Evaluation.deriv_mul, getInvB_, Evaluation.deriv_decayTo,
          Evaluation.val_decayTo, hdarcy, hfs.2.1, ite_self, mul_zero,
          add_zero, zero_add]
      simp only [phaseFluxContrib, hui, eq_self_iff_true, ite_true, if_true,
        ite_apply]
      split_ifs <;>
        exact evalPhaseFluxes_derivFree _ _ _ _ _ _ _ _ _ _ (hsvf _ _ _) hfs hflux
    · obtain ⟨hfs, hmob, hporo⟩ := hex
      have hdarcy : ∀ (c : Prop) (inst : Decidable c),
          (darcyFlux_ c pd (a.exQ.mobility p) (rcm a.exQ a.globalIndexEx)
            a.trans a.faceArea).deriv k = 0 := by
        intro c inst
        unfold darcyFlux_
        split_ifs <;>
          simp only [Evaluation.deriv_mul, Evaluation.deriv_constE,
            Evaluation.val_mul, Evaluation.val_constE, hpdk, hmob, hrcm,
            Evaluation.deriv_zero, mul_zero, add_zero, zero_mul, zero_add]
      have hsvf : ∀ (keep : Bool) (c : Prop) (inst : Decidable c),
          ((getInvB_ keep a.exQ.fluidState p a.exQ.pvtRegionIndex) *
            darcyFlux_ c pd (a.exQ.mobility p) (rcm a.exQ a.globalIndexEx)
              a.trans a.faceArea).deriv k = 0 := by
        intro keep c inst
        simp only [Evaluation.deriv_mul, getInvB_, Evaluation.deriv_decayTo,
          Evaluation.val_decayTo, hdarcy, hfs.2.1, ite_self, mul_zero,
          add_zero, zero_add]
      simp only [phaseFluxContrib, hui, if_false, ite_false, ite_apply]
      split_ifs <;>
        exact evalPhaseFluxes_derivFree _ _ _ _ _ _ _ _ _ _ (hsvf _ _ _) hfs hflux

/-- C3 witness: the amended derivative-discipline theorem instantiated at
the example face with the interior dof upstream, and derivative slot 1, in
which every example input is derivative-free. -/
theorem claimC3_derivative_discipline_witness :
    (darcyFlux_ ((0 : ℕ) = exArgs.interiorDofIdx) (Evaluation.constE 1)
        (exArgs.inQ.mobility waterPhaseIdx) (exRcm exArgs.inQ exArgs.globalIndexIn)
        exArgs.trans exArgs.faceArea =
      Evaluation.constE 1 * exArgs.inQ.mobility waterPhaseIdx *
        exRcm exArgs.inQ exArgs.globalIndexIn *
        Evaluation.constE (-exArgs.trans / exArgs.faceArea))
    ∧ (phaseFluxContrib exCfg true exRcm exArgs waterPhaseIdx 0 (Evaluation.constE 1)
        (fun _ => 0) 0).deriv 1 = 0 :=
  ⟨((claimC3_derivative_discipline exCfg true exRcm exArgs waterPhaseIdx 0
      (Evaluation.constE 1) (fun _ => 0)).1 (by norm_num [Evaluation.constE])).1
      (by decide),
   (claimC3_derivative_discipline exCfg true exRcm exArgs waterPhaseIdx 0
      (Evaluation.constE 1) (fun _ => 0)).2 1 (by decide) (by decide) rfl
      (fun _ _ => rfl) 0 rfl⟩
